import Mathlib

/-!
Verification of the lap-timer core of `symple_lap-time_recorder.py`.

The Python program keeps its whole timer model in four attributes of
`LapTimerApp` (`start_time`, `is_running`, `elapsed_time`, `lap_times`) and
manipulates them through `toggle_timer`, `reset_timer`, `record_lap`,
`update_timer`, `format_time` and `save_results`.  This file embeds those
attributes and methods shallowly: Python floats become exact rationals,
Python strings become Lean strings built from character lists, the CSV
writer becomes a function producing the list of rows, and the GUI dialogs
of `save_results` become explicit inputs.  UI-only effects (labels, colors,
scrolling) are outside the embedded state.
-/

namespace LapTimer

/-- A fixed-width, zero-padded decimal rendering: the `w` digit characters of
`n` (most significant first), as produced by Python's zero-padded format
specifiers for numbers that fit in `w` digits. -/
def padDigits (w n : ℕ) : List Char :=
  (List.range w).reverse.map fun i => Nat.digitChar (n / 10 ^ i % 10)

/-- Round a rational to the nearest integer, ties to even: the rounding used
by Python's fixed-point `format` conversions (`:05.2f`, `:.3f`). -/
def roundHalfEven (q : ℚ) : ℤ :=
  if q - ⌊q⌋ < 1 / 2 then ⌊q⌋
  else if 1 / 2 < q - ⌊q⌋ then ⌊q⌋ + 1
  else if ⌊q⌋ % 2 = 0 then ⌊q⌋ else ⌊q⌋ + 1

/-- Python `f"{m:02d}"`: decimal rendering of an integer, zero-padded to
width two (the sign, when present, counts toward the width). -/
def minutesStr (m : ℤ) : String :=
  if m < 0 then "-" ++ Nat.repr m.natAbs
  else if m < 10 then "0" ++ Nat.repr m.toNat
  else Nat.repr m.toNat

/-- Python `f"{r:05.2f}"` for the remainder `r = seconds % 60`, which always
lies in `[0, 60)`: the value rounded to hundredths, rendered with two fraction
digits and zero-padded to overall width five. -/
def secondsStr (r : ℚ) : String :=
  let n := (roundHalfEven (100 * r)).toNat
  (if n < 1000 then "0" ++ Nat.repr (n / 100) else Nat.repr (n / 100))
    ++ "." ++ (padDigits 2 (n % 100)).asString

/-- `format_time` (source lines 306-310): `minutes = int(seconds // 60)`,
`remaining_seconds = seconds % 60`, rendered as
`f"{minutes:02d}:{remaining_seconds:05.2f}"`.  Python float `//` is floor
division and `%` the corresponding remainder. -/
def format_time (seconds : ℚ) : String :=
  let minutes : ℤ := ⌊seconds / 60⌋
  let remaining_seconds : ℚ := seconds - 60 * minutes
  minutesStr minutes ++ ":" ++ secondsStr remaining_seconds

/-- A wall-clock timestamp (`datetime.now()`), split into the fields that
`strftime` renders; `micro` is the microsecond field `%f`. -/
structure Timestamp where
  year : ℕ
  month : ℕ
  day : ℕ
  hour : ℕ
  minute : ℕ
  second : ℕ
  micro : ℕ
  deriving DecidableEq

/-- Python `t.strftime('%Y-%m-%d %H:%M:%S')`. -/
def strftimeSec (t : Timestamp) : String :=
  (padDigits 4 t.year).asString ++ "-" ++ (padDigits 2 t.month).asString
    ++ "-" ++ (padDigits 2 t.day).asString ++ " " ++ (padDigits 2 t.hour).asString
    ++ ":" ++ (padDigits 2 t.minute).asString ++ ":" ++ (padDigits 2 t.second).asString

/-- The character list of `t.strftime('%Y-%m-%d %H:%M:%S.%f')`: the
second-resolution rendering, a dot, and the six microsecond digits. -/
def strftimeMicroChars (t : Timestamp) : List Char :=
  (strftimeSec t).toList ++ ('.' :: padDigits 6 t.micro)

/-- Python `t.strftime('%Y-%m-%d %H:%M:%S.%f')[:-3]` (source line 361): the
slice drops the string's last three characters. -/
def strftimeMs (t : Timestamp) : String :=
  (strftimeMicroChars t).dropLast.dropLast.dropLast.asString

/-- One entry of `self.lap_times` (the dict built in `record_lap`,
source lines 276-281). -/
structure LapData where
  number : ℕ
  lap_time : ℚ
  total_time : ℚ
  timestamp : Timestamp
  deriving DecidableEq

/-- The timer attributes of `LapTimerApp` (source lines 33-37). -/
structure TimerState where
  start_time : Option ℚ
  is_running : Bool
  elapsed_time : ℚ
  lap_times : List LapData
  deriving DecidableEq

/-- The state set up by `__init__`: `start_time = None`, `is_running = False`,
`elapsed_time = 0`, `lap_times = []`. -/
def initState : TimerState :=
  { start_time := none, is_running := false, elapsed_time := 0, lap_times := [] }

/-- `toggle_timer` (source lines 217-241), restricted to the timer state:
when stopped it sets `start_time = time.time() - elapsed_time` (with `now`
standing for `time.time()`) and starts running; when running it stops. -/
def toggle_timer (now : ℚ) (s : TimerState) : TimerState :=
  if !s.is_running then
    { s with start_time := some (now - s.elapsed_time), is_running := true }
  else
    { s with is_running := false }

/-- `reset_timer` (source lines 243-262), restricted to the timer state:
unconditionally clears all four attributes. -/
def reset_timer (_ : TimerState) : TimerState :=
  { start_time := none, is_running := false, elapsed_time := 0, lap_times := [] }

/-- `record_lap` (source lines 264-285): only while running, it reads the
cached `elapsed_time`, computes the difference to the previous lap's
`total_time` (or the whole value for the first lap) and appends the new
record; `ts` stands for `datetime.now()`. -/
def record_lap (lap_number : ℕ) (ts : Timestamp) (s : TimerState) : TimerState :=
  if s.is_running then
    let current_time := s.elapsed_time
    let lap_time :=
      match s.lap_times.getLast? with
      | some last => current_time - last.total_time
      | none => current_time
    { s with lap_times := s.lap_times ++
        [{ number := lap_number, lap_time := lap_time,
           total_time := current_time, timestamp := ts }] }
  else s

/-- `update_timer` (source lines 370-377), restricted to the timer state:
`if self.is_running and self.start_time:` recomputes
`elapsed_time = time.time() - start_time` (with `now` for `time.time()`).
Python truthiness makes the guard fail when `start_time` is `None` or `0.0`. -/
def update_timer (now : ℚ) (s : TimerState) : TimerState :=
  match s.start_time with
  | some st => if s.is_running ∧ st ≠ 0 then { s with elapsed_time := now - st } else s
  | none => s

/-- The discrete inputs the event loop can deliver to the timer model: the
space key (`toggle_timer`), the display timer (`update_timer`), a digit key
(`record_lap`) and the escape key (`reset_timer`).  `toggle` and `tick` carry
the value `time.time()` returns at that moment. -/
inductive Event where
  | toggle (now : ℚ)
  | tick (now : ℚ)
  | lap (lap_number : ℕ) (ts : Timestamp)
  | reset
  deriving DecidableEq

/-- Dispatch one event to the method it triggers. -/
def step (s : TimerState) (e : Event) : TimerState :=
  match e with
  | .toggle now => toggle_timer now s
  | .tick now => update_timer now s
  | .lap n ts => record_lap n ts s
  | .reset => reset_timer s

/-- Run a whole event sequence from the initial state. -/
def run (es : List Event) : TimerState :=
  es.foldl step initState

/-- The wall-clock readings a trace consumes, in order. -/
def eventTimes : List Event → List ℚ
  | [] => []
  | .toggle now :: es => now :: eventTimes es
  | .tick now :: es => now :: eventTimes es
  | .lap _ _ :: es => eventTimes es
  | .reset :: es => eventTimes es

/-- A trace with the `tick` events removed: what remains is the sequence of
user-visible inputs at their absolute times. -/
def eraseTicks (es : List Event) : List Event :=
  es.filter fun e => match e with | .tick _ => false | _ => true

/-- The `total_time` of the last recorded lap, or `p` when no lap exists:
the value `record_lap` subtracts (`self.lap_times[-1]['total_time']` when
`self.lap_times` is non-empty). -/
def lastTotalFrom (p : ℚ) (l : List LapData) : ℚ :=
  match l.getLast? with
  | some d => d.total_time
  | none => p

/-- The bookkeeping invariant of a lap list, relative to the previous
cumulative total `p`: totals never decrease and every `lap_time` is the
difference to the previous total. -/
def lapsOK : ℚ → List LapData → Prop
  | _, [] => True
  | p, d :: rest =>
      p ≤ d.total_time ∧ d.lap_time = d.total_time - p ∧ lapsOK d.total_time rest

/-- The reachability invariant of the timer state: the lap list is
well-formed, the cached elapsed time dominates the last total and is
non-negative, and while running the elapsed time is consistent with any
wall-clock reading of at least `tlo` (the last reading seen so far). -/
def Inv (s : TimerState) (tlo : ℚ) : Prop :=
  lapsOK 0 s.lap_times
    ∧ lastTotalFrom 0 s.lap_times ≤ s.elapsed_time
    ∧ 0 ≤ s.elapsed_time
    ∧ (s.is_running = true → ∀ st, s.start_time = some st → s.elapsed_time ≤ tlo - st)

/-- Python `str.strip()`: whitespace removed from both ends. -/
def pyStrip (s : String) : String :=
  ((s.toList.dropWhile Char.isWhitespace).reverse.dropWhile Char.isWhitespace).reverse.asString

/-- Python `f"{q:.3f}"`: the value rounded to three decimals, rendered with
exactly three fraction digits. -/
def fmt3 (q : ℚ) : String :=
  let n := roundHalfEven (1000 * q)
  (if n < 0 then "-" else "") ++ Nat.repr (n.natAbs / 1000)
    ++ "." ++ (padDigits 3 (n.natAbs % 1000)).asString

/-- How one call of `save_results` ends, seen from the caller: the
early-informational return on an empty session, a silent return when a
dialog is cancelled, a successful write of the CSV rows to the chosen path,
or the caught write exception shown as an error box.  Only `written`
touches the filesystem. -/
inductive SaveOutcome where
  | emptySession
  | cancelled
  | written (path : String) (rows : List (List String))
  | writeFailed (msg : String)
  deriving DecidableEq

/-- The interactive inputs `save_results` consumes: the session-name dialog
result (`ok` flag and text), the file dialog's path (empty when cancelled,
per Python truthiness), and whether the `open`/write raises (`some` carries
the exception's message). -/
structure SaveDialogs where
  nameOk : Bool
  nameText : String
  filePath : String
  writeErr : Option String
  deriving DecidableEq

/-- The rows `save_results` hands to `csv.writer` (source lines 343-362):
the session-information block, one empty row, the column-header row, and one
row per recorded lap. -/
def csvRows (session_name : String) (now : Timestamp) (s : TimerState) : List (List String) :=
  [["# Session Information"],
   ["Session Name", session_name],
   ["Save Date", strftimeSec now],
   ["Total Laps", Nat.repr s.lap_times.length],
   ["Total Time", format_time s.elapsed_time],
   []]
  ++ [["Lap Number", "Lap Time (sec)", "Lap Time (display)",
       "Total Time (sec)", "Total Time (display)", "Timestamp"]]
  ++ s.lap_times.map fun lap_data =>
      [Nat.repr lap_data.number,
       fmt3 lap_data.lap_time,
       format_time lap_data.lap_time,
       fmt3 lap_data.total_time,
       format_time lap_data.total_time,
       strftimeMs lap_data.timestamp]

/-- `save_results` (source lines 312-368): the empty-session check, the two
dialog checks, then the guarded write.  The timer attributes are only read,
never assigned, so the state is returned unchanged on every path; `now`
stands for the `datetime.now()` of the metadata block. -/
def save_results (d : SaveDialogs) (now : Timestamp) (s : TimerState) :
    TimerState × SaveOutcome :=
  if s.lap_times.isEmpty then (s, .emptySession)
  else if d.nameOk = false ∨ pyStrip d.nameText = "" then (s, .cancelled)
  else if d.filePath = "" then (s, .cancelled)
  else match d.writeErr with
    | some msg => (s, .writeFailed msg)
    | none => (s, .written d.filePath (csvRows (pyStrip d.nameText) now s))

/-- A concrete timestamp used by the concrete instantiations below. -/
def ts0 : Timestamp := ⟨2026, 1, 2, 3, 4, 5, 678901⟩

/-- Two concrete traces with the same user inputs at the same absolute
times, differing only in the display tick. -/
def esA : List Event := [.toggle 10, .tick 15, .lap 1 ts0]

/-- The companion trace of `esA` with the tick skipped. -/
def esB : List Event := [.toggle 10, .lap 1 ts0]

/-- A concrete monotone trace recording two laps. -/
def trC1 : List Event := [.toggle 10, .tick 15, .lap 1 ts0, .tick 19, .lap 2 ts0]

/-- A concrete one-lap timer state. -/
def oneLapState : TimerState :=
  { start_time := some 10, is_running := true, elapsed_time := 5,
    lap_times := [{ number := 3, lap_time := 5, total_time := 5, timestamp := ts0 }] }

/-- Concrete dialog inputs: both dialogs confirmed, the write succeeding. -/
def dlg0 : SaveDialogs :=
  { nameOk := true, nameText := "Session_1", filePath := "out.csv", writeErr := none }

theorem lastTotalFrom_cons (p : ℚ) (d : LapData) (l : List LapData) :
    lastTotalFrom p (d :: l) = lastTotalFrom d.total_time l := by
  cases l with
  | nil => simp [lastTotalFrom]
  | cons e r =>
    simp only [lastTotalFrom, List.getLast?_cons_cons]
    cases hl : (e :: r).getLast? with
    | none => simp at hl
    | some d2 => rfl

theorem lastTotalFrom_concat (p : ℚ) (l : List LapData) (d : LapData) :
    lastTotalFrom p (l ++ [d]) = d.total_time := by
  simp [lastTotalFrom, List.getLast?_concat]

theorem record_lap_running {s : TimerState} (h : s.is_running = true)
    (n : ℕ) (ts : Timestamp) :
    record_lap n ts s = { s with lap_times := s.lap_times ++
      [{ number := n, lap_time := s.elapsed_time - lastTotalFrom 0 s.lap_times,
         total_time := s.elapsed_time, timestamp := ts }] } := by
  unfold record_lap
  rw [if_pos h]
  cases hl : s.lap_times.getLast? with
  | none => simp [hl, lastTotalFrom]
  | some last => simp [hl, lastTotalFrom]

theorem record_lap_stopped {s : TimerState} (h : s.is_running = false)
    (n : ℕ) (ts : Timestamp) : record_lap n ts s = s := by
  unfold record_lap
  rw [if_neg]
  simp [h]

theorem lapsOK_concat {c : ℚ} (n : ℕ) (ts : Timestamp) :
    ∀ (l : List LapData) (p : ℚ), lapsOK p l → lastTotalFrom p l ≤ c →
      lapsOK p (l ++
        [{ number := n, lap_time := c - lastTotalFrom p l,
           total_time := c, timestamp := ts }]) := by
  intro l
  induction l with
  | nil =>
    intro p _ hle
    simp [lastTotalFrom, lapsOK] at hle ⊢
    exact hle
  | cons d rest ih =>
    intro p hOK hle
    rw [lastTotalFrom_cons] at hle ⊢
    refine ⟨hOK.1, hOK.2.1, ?_⟩
    exact ih d.total_time hOK.2.2 hle

theorem inv_initState (t : ℚ) : Inv initState t := by
  refine ⟨trivial, le_refl 0, le_refl 0, ?_⟩
  intro h
  simp [initState] at h

theorem update_timer_some {s : TimerState} {st : ℚ} (hst : s.start_time = some st)
    (n : ℚ) :
    update_timer n s =
      if s.is_running = true ∧ st ≠ 0 then { s with elapsed_time := n - st } else s := by
  unfold update_timer
  rw [hst]

theorem update_timer_none {s : TimerState} (hst : s.start_time = none) (n : ℚ) :
    update_timer n s = s := by
  unfold update_timer
  rw [hst]

theorem inv_toggle {s : TimerState} {t₀ : ℚ} (h : Inv s t₀) (n : ℚ) :
    Inv (toggle_timer n s) n := by
  obtain ⟨hOK, hlast, hnn, _⟩ := h
  unfold toggle_timer
  cases hr : s.is_running with
  | false =>
    simp only [hr, Bool.not_false, if_pos]
    refine ⟨hOK, hlast, hnn, ?_⟩
    intro _ st hst
    simp only [Option.some.injEq] at hst
    subst hst
    show s.elapsed_time ≤ n - (n - s.elapsed_time)
    linarith
  | true =>
    simp only [hr, Bool.not_true, if_neg]
    exact ⟨hOK, hlast, hnn, by simp [hr]⟩

theorem inv_tick {s : TimerState} {t₀ : ℚ} (h : Inv s t₀) {n : ℚ} (hle : t₀ ≤ n) :
    Inv (update_timer n s) n := by
  obtain ⟨hOK, hlast, hnn, hrun⟩ := h
  cases hst : s.start_time with
  | none =>
    rw [update_timer_none hst]
    refine ⟨hOK, hlast, hnn, ?_⟩
    intro hr st hst2
    rw [hst] at hst2
    exact absurd hst2 (by simp)
  | some st =>
    rw [update_timer_some hst]
    by_cases hc : s.is_running = true ∧ st ≠ 0
    · rw [if_pos hc]
      have hb : s.elapsed_time ≤ t₀ - st := hrun hc.1 st hst
      refine ⟨hOK, ?_, ?_, ?_⟩
      · show lastTotalFrom 0 s.lap_times ≤ n - st
        linarith
      · show (0 : ℚ) ≤ n - st
        linarith
      · intro _ st2 hst2
        dsimp only at hst2 ⊢
        rw [hst] at hst2
        simp only [Option.some.injEq] at hst2
        subst hst2
        exact le_refl _
    · rw [if_neg hc]
      refine ⟨hOK, hlast, hnn, ?_⟩
      intro hr st2 hst2
      rw [hst] at hst2
      simp only [Option.some.injEq] at hst2
      subst hst2
      exact le_trans (hrun hr st hst) (by linarith)

theorem inv_lap {s : TimerState} {t₀ : ℚ} (h : Inv s t₀) (n : ℕ) (ts : Timestamp) :
    Inv (record_lap n ts s) t₀ := by
  obtain ⟨hOK, hlast, hnn, hrun⟩ := h
  cases hr : s.is_running with
  | false => rw [record_lap_stopped hr]; exact ⟨hOK, hlast, hnn, hrun⟩
  | true =>
    rw [record_lap_running hr]
    refine ⟨lapsOK_concat n ts s.lap_times 0 hOK hlast, ?_, hnn, hrun⟩
    rw [lastTotalFrom_concat]

theorem inv_reset {s : TimerState} (t₀ : ℚ) : Inv (reset_timer s) t₀ := by
  refine ⟨trivial, le_refl 0, le_refl 0, ?_⟩
  intro h
  simp [reset_timer] at h

theorem foldl_inv :
    ∀ (es : List Event) (s : TimerState) (t₀ : ℚ), Inv s t₀ →
      List.Chain (· ≤ ·) t₀ (eventTimes es) → ∃ t₁, Inv (es.foldl step s) t₁ := by
  intro es
  induction es with
  | nil => exact fun s t₀ h _ => ⟨t₀, h⟩
  | cons e rest ih =>
    intro s t₀ h hch
    cases e with
    | toggle n =>
      rw [show eventTimes (.toggle n :: rest) = n :: eventTimes rest from rfl,
        List.chain_cons] at hch
      exact ih (toggle_timer n s) n (inv_toggle h n) hch.2
    | tick n =>
      rw [show eventTimes (.tick n :: rest) = n :: eventTimes rest from rfl,
        List.chain_cons] at hch
      exact ih (update_timer n s) n (inv_tick h hch.1) hch.2
    | lap n ts => exact ih (record_lap n ts s) t₀ (inv_lap h n ts) hch
    | reset => exact ih (reset_timer s) t₀ (inv_reset t₀) hch

theorem run_inv (es : List Event) (hmono : List.Chain' (· ≤ ·) (eventTimes es)) :
    ∃ t₁, Inv (run es) t₁ := by
  unfold run
  cases hteq : eventTimes es with
  | nil => exact foldl_inv es initState 0 (inv_initState 0) (by rw [hteq]; exact .nil)
  | cons t ts =>
    refine foldl_inv es initState t (inv_initState t) ?_
    rw [hteq]
    rw [hteq] at hmono
    exact List.Chain.cons (le_refl t) hmono

theorem lapsOK_le_total :
    ∀ (l : List LapData) (p : ℚ), lapsOK p l →
      ∀ i (hi : i < l.length), p ≤ (l.get ⟨i, hi⟩).total_time := by
  intro l
  induction l with
  | nil => intro p _ i hi; exact absurd hi (by simp)
  | cons d rest ih =>
    intro p h i hi
    cases i with
    | zero => exact h.1
    | succ j =>
      have hj : j < rest.length := Nat.lt_of_succ_lt_succ hi
      exact le_trans h.1 (ih d.total_time h.2.2 j hj)

theorem lapsOK_mono :
    ∀ (l : List LapData) (p : ℚ), lapsOK p l →
      ∀ i j (hij : i ≤ j) (hj : j < l.length),
        (l.get ⟨i, lt_of_le_of_lt hij hj⟩).total_time ≤ (l.get ⟨j, hj⟩).total_time := by
  intro l
  induction l with
  | nil => intro p _ i j _ hj; exact absurd hj (by simp)
  | cons d rest ih =>
    intro p h i j hij hj
    cases i with
    | zero =>
      cases j with
      | zero => exact le_refl _
      | succ k =>
        have hk : k < rest.length := Nat.lt_of_succ_lt_succ hj
        exact lapsOK_le_total rest d.total_time h.2.2 k hk
    | succ i0 =>
      cases j with
      | zero => exact absurd hij (by omega)
      | succ k =>
        have hk : k < rest.length := Nat.lt_of_succ_lt_succ hj
        exact ih d.total_time h.2.2 i0 k (Nat.le_of_succ_le_succ hij) hk

theorem lapsOK_first :
    ∀ (l : List LapData) (p : ℚ), lapsOK p l → ∀ (h0 : 0 < l.length),
      (l.get ⟨0, h0⟩).lap_time = (l.get ⟨0, h0⟩).total_time - p := by
  intro l p h h0
  cases l with
  | nil => exact absurd h0 (by simp)
  | cons d rest => exact h.2.1

theorem lapsOK_delta :
    ∀ (l : List LapData) (p : ℚ), lapsOK p l →
      ∀ i (hi : i + 1 < l.length),
        (l.get ⟨i + 1, hi⟩).lap_time =
          (l.get ⟨i + 1, hi⟩).total_time - (l.get ⟨i, Nat.lt_of_succ_lt hi⟩).total_time := by
  intro l
  induction l with
  | nil => intro p _ i hi; exact absurd hi (by simp)
  | cons d rest ih =>
    intro p h i hi
    cases i with
    | zero =>
      have h0 : 0 < rest.length := Nat.lt_of_succ_lt_succ hi
      exact lapsOK_first rest d.total_time h.2.2 h0
    | succ i0 =>
      have hi0 : i0 + 1 < rest.length := Nat.lt_of_succ_lt_succ hi
      exact ih d.total_time h.2.2 i0 hi0

theorem lapsOK_sum :
    ∀ (l : List LapData) (p : ℚ), lapsOK p l →
      ∀ i (hi : i < l.length),
        p + ((l.take (i + 1)).map LapData.lap_time).sum = (l.get ⟨i, hi⟩).total_time := by
  intro l
  induction l with
  | nil => intro p _ i hi; exact absurd hi (by simp)
  | cons d rest ih =>
    intro p h i hi
    cases i with
    | zero =>
      simp only [List.take, List.map, List.sum_cons, List.sum_nil, List.map_nil,
        List.take_nil, List.get]
      rw [h.2.1]
      ring
    | succ j =>
      have hj : j < rest.length := Nat.lt_of_succ_lt_succ hi
      have := ih d.total_time h.2.2 j hj
      simp only [List.take, List.map, List.sum_cons, List.get]
      rw [h.2.1]
      linarith [this]

theorem update_timer_twice (t u : ℚ) (s : TimerState) :
    update_timer t (update_timer u s) = update_timer t s := by
  cases hst : s.start_time with
  | none => rw [update_timer_none hst]
  | some st =>
    rw [update_timer_some hst u]
    by_cases hc : s.is_running = true ∧ st ≠ 0
    · rw [if_pos hc]
      have hst2 : ({ s with elapsed_time := u - st } : TimerState).start_time = some st := hst
      rw [update_timer_some hst2, update_timer_some hst]
      dsimp only
      rw [if_pos hc, if_pos hc]
    · rw [if_neg hc]

/-- C1: along every event trace whose wall-clock readings are non-decreasing,
the recorded laps have non-decreasing `total_time` (cumulative_duration),
the first lap's `lap_time` equals its `total_time`, every later `lap_time`
is the difference of consecutive `total_time` values, and the `lap_time`
values up to index `i` sum to `total_time` at `i`. -/
theorem record_lap_cumulative_invariant (es : List Event)
    (hmono : List.Chain' (· ≤ ·) (eventTimes es)) :
    (∀ i j (hij : i ≤ j) (hj : j < (run es).lap_times.length),
        ((run es).lap_times.get ⟨i, lt_of_le_of_lt hij hj⟩).total_time ≤
          ((run es).lap_times.get ⟨j, hj⟩).total_time)
    ∧ (∀ h0 : 0 < (run es).lap_times.length,
        ((run es).lap_times.get ⟨0, h0⟩).lap_time =
          ((run es).lap_times.get ⟨0, h0⟩).total_time)
    ∧ (∀ i (hi : i + 1 < (run es).lap_times.length),
        ((run es).lap_times.get ⟨i + 1, hi⟩).lap_time =
          ((run es).lap_times.get ⟨i + 1, hi⟩).total_time -
            ((run es).lap_times.get ⟨i, Nat.lt_of_succ_lt hi⟩).total_time)
    ∧ (∀ i (hi : i < (run es).lap_times.length),
        (((run es).lap_times.take (i + 1)).map LapData.lap_time).sum =
          ((run es).lap_times.get ⟨i, hi⟩).total_time) := by
  obtain ⟨t₁, hInv⟩ := run_inv es hmono
  have hOK := hInv.1
  refine ⟨lapsOK_mono _ 0 hOK, ?_, lapsOK_delta _ 0 hOK, ?_⟩
  · intro h0
    have h := lapsOK_first _ 0 hOK h0
    rw [sub_zero] at h
    exact h
  · intro i hi
    have h := lapsOK_sum _ 0 hOK i hi
    linarith

/-- Witness for C1: the two-lap trace `trC1` has non-decreasing readings, and
its laps satisfy all four conclusions. -/
theorem record_lap_cumulative_invariant_witness :
    List.Chain' (· ≤ ·) (eventTimes trC1) ∧
      ((∀ i j (hij : i ≤ j) (hj : j < (run trC1).lap_times.length),
          ((run trC1).lap_times.get ⟨i, lt_of_le_of_lt hij hj⟩).total_time ≤
            ((run trC1).lap_times.get ⟨j, hj⟩).total_time)
      ∧ (∀ h0 : 0 < (run trC1).lap_times.length,
          ((run trC1).lap_times.get ⟨0, h0⟩).lap_time =
            ((run trC1).lap_times.get ⟨0, h0⟩).total_time)
      ∧ (∀ i (hi : i + 1 < (run trC1).lap_times.length),
          ((run trC1).lap_times.get ⟨i + 1, hi⟩).lap_time =
            ((run trC1).lap_times.get ⟨i + 1, hi⟩).total_time -
              ((run trC1).lap_times.get ⟨i, Nat.lt_of_succ_lt hi⟩).total_time)
      ∧ (∀ i (hi : i < (run trC1).lap_times.length),
          (((run trC1).lap_times.take (i + 1)).map LapData.lap_time).sum =
            ((run trC1).lap_times.get ⟨i, hi⟩).total_time)) :=
  have hch : List.Chain' (· ≤ ·) (eventTimes trC1) := by
    norm_num [trC1, eventTimes, List.chain'_cons]
  ⟨hch, record_lap_cumulative_invariant trC1 hch⟩

/-- C3 counterexample: `esA` and `esB` carry the same toggle and lap events
at the same absolute times and differ only in a tick, yet they produce
different lap records — `record_lap` stores the cached `elapsed_time` of the
last tick, so skipping ticks changes the recorded values. -/
theorem tick_schedule_changes_laps :
    eraseTicks esA = eraseTicks esB ∧ (run esA).lap_times ≠ (run esB).lap_times := by
  constructor
  · decide
  · norm_num [run, esA, esB, step, initState, toggle_timer, update_timer, record_lap]

/-- C3 (amended): `update_timer` recomputes `elapsed_time` from the absolute
reading `now - start_time` instead of accumulating increments, so the state
after a tick at time `t` is the same whatever ticks came before it; lap
records, however, read the cached `elapsed_time` and so do depend on the
tick schedule (see the counterexample). -/
theorem update_timer_recomputes_from_absolute_time (ts : List ℚ) (t : ℚ)
    (s : TimerState) :
    update_timer t ((ts.map Event.tick).foldl step s) = update_timer t s := by
  induction ts generalizing s with
  | nil => rfl
  | cons u rest ih =>
    show update_timer t ((rest.map Event.tick).foldl step (update_timer u s)) =
      update_timer t s
    rw [ih (update_timer u s), update_timer_twice]

/-- C4: toggling while running stops the timer and freezes `elapsed_time`
at its cached value; toggling while stopped starts it with
`start_time = now - elapsed_time`, so a tick at the resume instant
reproduces exactly the frozen value and any later tick adds exactly the
time passed since the resume — no drift and no re-zeroing. -/
theorem toggle_timer_freeze_resume (s : TimerState) (n : ℚ) :
    (s.is_running = true → toggle_timer n s = { s with is_running := false })
    ∧ (s.is_running = false →
        toggle_timer n s =
            { s with start_time := some (n - s.elapsed_time), is_running := true }
        ∧ (update_timer n (toggle_timer n s)).elapsed_time = s.elapsed_time
        ∧ ∀ t : ℚ, (update_timer t (toggle_timer n s)).elapsed_time = s.elapsed_time
            ∨ (update_timer t (toggle_timer n s)).elapsed_time =
                s.elapsed_time + (t - n)) := by
  constructor
  · intro hr
    simp [toggle_timer, hr]
  · intro hr
    have ht : toggle_timer n s =
        { s with start_time := some (n - s.elapsed_time), is_running := true } := by
      simp [toggle_timer, hr]
    have helapsed : ∀ t : ℚ, (update_timer t (toggle_timer n s)).elapsed_time =
        s.elapsed_time ∨ (update_timer t (toggle_timer n s)).elapsed_time =
        s.elapsed_time + (t - n) := by
      intro t
      rw [ht, update_timer_some rfl]
      by_cases hz : n - s.elapsed_time = 0
      · rw [if_neg (by simp [hz])]
        exact Or.inl rfl
      · rw [if_pos ⟨rfl, hz⟩]
        right
        show t - (n - s.elapsed_time) = s.elapsed_time + (t - n)
        ring
    refine ⟨ht, ?_, helapsed⟩
    rcases helapsed n with h | h
    · exact h
    · rw [h]; ring

/-- C5: while the timer is not running — including the freshly initialised
state — `record_lap` is a silent no-op for every label: no record is
appended and the whole state is unchanged (it is a total function, so no
error is raised). -/
theorem record_lap_noop_when_stopped (lap_number : ℕ) (ts : Timestamp)
    (s : TimerState) (h : s.is_running = false) : record_lap lap_number ts s = s :=
  record_lap_stopped h lap_number ts

/-- Witness for C5 at the freshly initialised state and label 7. -/
theorem record_lap_noop_when_stopped_witness :
    initState.is_running = false ∧ record_lap 7 ts0 initState = initState :=
  ⟨rfl, record_lap_noop_when_stopped 7 ts0 initState rfl⟩

/-- C6: from every prior state, `reset_timer` yields exactly the state the
application starts in: not running, `start_time = None`, zero elapsed time
and an empty lap list. -/
theorem reset_timer_yields_initState (s : TimerState) :
    reset_timer s = initState ∧ (reset_timer s).is_running = false
      ∧ (reset_timer s).elapsed_time = 0 ∧ (reset_timer s).lap_times = [] :=
  ⟨rfl, rfl, rfl, rfl⟩

theorem roundHalfEven_err_le (q : ℚ) : |(roundHalfEven q : ℚ) - q| ≤ 1 / 2 := by
  have h1 : (⌊q⌋ : ℚ) ≤ q := Int.floor_le q
  have h2 : q < ⌊q⌋ + 1 := Int.lt_floor_add_one q
  unfold roundHalfEven
  by_cases hlt : q - ⌊q⌋ < 1 / 2
  · rw [if_pos hlt, abs_le]
    constructor <;> linarith
  · rw [if_neg hlt]
    by_cases hgt : 1 / 2 < q - ⌊q⌋
    · rw [if_pos hgt]
      push_cast
      rw [abs_le]
      constructor <;> linarith
    · rw [if_neg hgt]
      by_cases hev : ⌊q⌋ % 2 = 0
      · rw [if_pos hev, abs_le]
        constructor <;> linarith
      · rw [if_neg hev]
        push_cast
        rw [abs_le]
        constructor <;> linarith

theorem repr_length_one : ∀ n, n < 10 → (Nat.repr n).length = 1 := by decide

theorem repr_length_two : ∀ n, n < 100 → 10 ≤ n → (Nat.repr n).length = 2 := by decide

/-- C2 counterexample: on 59.996 seconds the code renders "00:60.00", while
truncating the modulo-60 remainder toward the display grid would keep the
hundredths at 5999 and render "00:59.99" — the seconds field is rounded by
the format conversion, not truncated. -/
theorem format_time_seconds_not_truncated :
    format_time (59996 / 1000) = "00:60.00"
      ∧ ⌊100 * ((59996 : ℚ) / 1000 - 60 * ⌊(59996 : ℚ) / 1000 / 60⌋)⌋ = 5999
      ∧ ("00:60.00" : String) ≠ "00:59.99" := by
  refine ⟨?_, by norm_num, by decide⟩
  norm_num [format_time, minutesStr, secondsStr, roundHalfEven, padDigits]
  decide

/-- C2 (amended): the minutes field of `format_time` is the floor of
`seconds / 60` as claimed, but the seconds-with-hundredths field rounds the
modulo-60 remainder to the nearest hundredth (ties to even) instead of
truncating: the rendered hundredths value differs from the exact one by at
most one half, and 59.996 seconds renders as "00:60.00" — the minutes field
stays at the floor, while the seconds field rounds up to 60.00. -/
theorem format_time_floor_minutes_rounded_seconds (q : ℚ) :
    format_time q = minutesStr ⌊q / 60⌋ ++ ":" ++ secondsStr (q - 60 * ⌊q / 60⌋)
      ∧ |(roundHalfEven (100 * (q - 60 * ⌊q / 60⌋)) : ℚ) -
          100 * (q - 60 * ⌊q / 60⌋)| ≤ 1 / 2
      ∧ format_time (59996 / 1000) = "00:60.00" := by
  refine ⟨rfl, roundHalfEven_err_le _, ?_⟩
  norm_num [format_time, minutesStr, secondsStr, roundHalfEven, padDigits]
  decide

/-- C9: the four fixed examples of `format_time` hold, the minutes field is
rendered unpadded (hence unbounded in digit count) as soon as it has two or
more digits, its rendering has length exactly two for all values below 100
minutes, and a five-digit minute count is rendered in full. -/
theorem format_time_examples :
    format_time 0 = "00:00.00" ∧ format_time 65 = "01:05.00"
      ∧ format_time (627 / 5) = "02:05.40" ∧ format_time (7323 / 2) = "61:01.50"
      ∧ (∀ m : ℤ, 10 ≤ m → minutesStr m = Nat.repr m.toNat)
      ∧ (∀ m : ℤ, 0 ≤ m → m < 100 → (minutesStr m).length = 2)
      ∧ format_time (60 * 12345) = "12345:00.00" := by
  refine ⟨?_, ?_, ?_, ?_, ?_, ?_, ?_⟩
  · norm_num [format_time, minutesStr, secondsStr, roundHalfEven, padDigits]
    decide
  · norm_num [format_time, minutesStr, secondsStr, roundHalfEven, padDigits]
    decide
  · norm_num [format_time, minutesStr, secondsStr, roundHalfEven, padDigits]
    decide
  · norm_num [format_time, minutesStr, secondsStr, roundHalfEven, padDigits]
    decide
  · intro m hm
    rw [minutesStr, if_neg (by omega), if_neg (by omega)]
  · intro m h0 h100
    by_cases hlt : m < 10
    · rw [minutesStr, if_neg (by omega), if_pos hlt, String.length_append,
        repr_length_one m.toNat (by omega)]
      rfl
    · rw [minutesStr, if_neg (by omega), if_neg hlt,
        repr_length_two m.toNat (by omega) (by omega)]
  · norm_num [format_time, minutesStr, secondsStr, roundHalfEven, padDigits]
    decide

/-- C7: requesting an export with zero recorded laps only shows the
informational message and returns: the state is unchanged and no path/rows
pair is ever produced, so nothing reaches the filesystem. -/
theorem save_results_empty_session (d : SaveDialogs) (now : Timestamp)
    (s : TimerState) (h : s.lap_times = []) :
    save_results d now s = (s, SaveOutcome.emptySession)
      ∧ ∀ path rows, (save_results d now s).2 ≠ SaveOutcome.written path rows := by
  constructor
  · simp [save_results, h]
  · intro path rows
    simp [save_results, h]

/-- Witness for C7 at the freshly initialised (lap-free) state. -/
theorem save_results_empty_session_witness :
    initState.lap_times = [] ∧
      (save_results dlg0 ts0 initState = (initState, SaveOutcome.emptySession)
        ∧ ∀ path rows,
            (save_results dlg0 ts0 initState).2 ≠ SaveOutcome.written path rows) :=
  ⟨rfl, save_results_empty_session dlg0 ts0 initState rfl⟩

/-- C10: on every path through `save_results` — empty session, cancelled
name dialog, cancelled file dialog, failed write or successful write — the
timer state comes back unchanged: the export only reads the timer model. -/
theorem save_results_preserves_state (d : SaveDialogs) (now : Timestamp)
    (s : TimerState) : (save_results d now s).1 = s := by
  unfold save_results
  by_cases h1 : s.lap_times.isEmpty
  · simp [h1]
  · by_cases h2 : d.nameOk = false ∨ pyStrip d.nameText = ""
    · simp [h1, h2]
    · by_cases h3 : d.filePath = ""
      · simp [h1, h2, h3]
      · cases hw : d.writeErr <;> simp [h1, h2, h3, hw]

theorem padDigits_length (w n : ℕ) : (padDigits w n).length = w := by
  simp [padDigits]

theorem asString_length (l : List Char) : l.asString.length = l.length := rfl

theorem fmt3_three_decimals (q : ℚ) :
    ∃ a b : String, fmt3 q = a ++ "." ++ b ∧ b.length = 3 := by
  refine ⟨(if roundHalfEven (1000 * q) < 0 then "-" else "")
      ++ Nat.repr ((roundHalfEven (1000 * q)).natAbs / 1000),
    (padDigits 3 ((roundHalfEven (1000 * q)).natAbs % 1000)).asString, rfl, ?_⟩
  rw [asString_length, padDigits_length]

theorem padDigits_three (k : ℕ) :
    padDigits 3 k = [Nat.digitChar (k / 100 % 10), Nat.digitChar (k / 10 % 10),
      Nat.digitChar (k % 10)] := by
  simp [padDigits, List.range_succ]

theorem padDigits_six_split (m : ℕ) :
    padDigits 6 m = padDigits 3 (m / 1000) ++ padDigits 3 (m % 1000) := by
  simp only [padDigits, List.range_succ, List.range_zero]
  simp only [List.reverse, List.map, List.append_nil, List.nil_append,
    List.reverseAux, List.cons_append, List.append_assoc]
  norm_num
  refine ⟨?_, ?_, ?_, ?_⟩ <;> (congr 1; omega)

theorem dropLast_three_concat (l : List Char) (a b c : Char) :
    (l ++ [a, b, c]).dropLast.dropLast.dropLast = l := by
  simp

theorem strftimeMs_milliseconds (t : Timestamp) :
    strftimeMs t =
      ((strftimeSec t).toList ++ ('.' :: padDigits 3 (t.micro / 1000))).asString := by
  unfold strftimeMs strftimeMicroChars
  congr 1
  rw [padDigits_six_split, padDigits_three (t.micro % 1000)]
  have hassoc : (strftimeSec t).toList ++ ('.' :: (padDigits 3 (t.micro / 1000) ++
      [Nat.digitChar (t.micro % 1000 / 100 % 10), Nat.digitChar (t.micro % 1000 / 10 % 10),
        Nat.digitChar (t.micro % 1000 % 10)])) =
      ((strftimeSec t).toList ++ '.' :: padDigits 3 (t.micro / 1000)) ++
        [Nat.digitChar (t.micro % 1000 / 100 % 10), Nat.digitChar (t.micro % 1000 / 10 % 10),
          Nat.digitChar (t.micro % 1000 % 10)] := by
    simp
  rw [hassoc, dropLast_three_concat]

/-- C8: on a non-empty lap list (with both dialogs confirmed and the write
succeeding) the exported rows are, in order: the metadata block — marker
line, session name, save date, total lap count, formatted total time — one
blank row, the six-column header row, then one row per lap in recording
order; the raw-seconds fields always carry exactly three decimals and the
timestamp field is the second-resolution rendering extended by exactly the
three millisecond digits. -/
theorem save_results_export_layout (d : SaveDialogs) (now : Timestamp)
    (s : TimerState) (hlaps : s.lap_times ≠ []) (hok : d.nameOk = true)
    (hname : pyStrip d.nameText ≠ "") (hpath : d.filePath ≠ "")
    (hw : d.writeErr = none) :
    ∃ rows, (save_results d now s).2 = SaveOutcome.written d.filePath rows
      ∧ rows.length = 7 + s.lap_times.length
      ∧ rows.take 6 = [["# Session Information"],
          ["Session Name", pyStrip d.nameText],
          ["Save Date", strftimeSec now],
          ["Total Laps", Nat.repr s.lap_times.length],
          ["Total Time", format_time s.elapsed_time],
          []]
      ∧ rows[6]? = some ["Lap Number", "Lap Time (sec)", "Lap Time (display)",
          "Total Time (sec)", "Total Time (display)", "Timestamp"]
      ∧ rows.drop 7 = s.lap_times.map (fun lap_data =>
          [Nat.repr lap_data.number, fmt3 lap_data.lap_time,
           format_time lap_data.lap_time, fmt3 lap_data.total_time,
           format_time lap_data.total_time, strftimeMs lap_data.timestamp])
      ∧ (∀ q : ℚ, ∃ a b : String, fmt3 q = a ++ "." ++ b ∧ b.length = 3)
      ∧ (∀ t : Timestamp, strftimeMs t =
          ((strftimeSec t).toList ++ ('.' :: padDigits 3 (t.micro / 1000))).asString) := by
  refine ⟨csvRows (pyStrip d.nameText) now s, ?_, ?_, ?_, ?_, ?_,
    fmt3_three_decimals, strftimeMs_milliseconds⟩
  · have h1 : ¬ (s.lap_times.isEmpty = true) := by simp [hlaps]
    have h2 : ¬ (d.nameOk = false ∨ pyStrip d.nameText = "") := by
      push_neg
      exact ⟨by simp [hok], hname⟩
    unfold save_results
    rw [if_neg h1, if_neg h2, if_neg hpath, hw]
  · simp [csvRows]
    omega
  · unfold csvRows
    rw [List.append_assoc]
    exact List.take_left' rfl
  · unfold csvRows
    rw [List.append_assoc, List.getElem?_append_right (by simp)]
    simp
  · unfold csvRows
    exact List.drop_left' (by simp)

/-- Witness for C8: the one-lap state exported with the confirmed dialogs
`dlg0` satisfies every clause of the layout theorem. -/
theorem save_results_export_layout_witness :
    oneLapState.lap_times ≠ [] ∧ dlg0.nameOk = true ∧ pyStrip dlg0.nameText ≠ ""
      ∧ dlg0.filePath ≠ "" ∧ dlg0.writeErr = none
      ∧ (∃ rows, (save_results dlg0 ts0 oneLapState).2 =
            SaveOutcome.written dlg0.filePath rows
        ∧ rows.length = 7 + oneLapState.lap_times.length
        ∧ rows.take 6 = [["# Session Information"],
            ["Session Name", pyStrip dlg0.nameText],
            ["Save Date", strftimeSec ts0],
            ["Total Laps", Nat.repr oneLapState.lap_times.length],
            ["Total Time", format_time oneLapState.elapsed_time],
            []]
        ∧ rows[6]? = some ["Lap Number", "Lap Time (sec)", "Lap Time (display)",
            "Total Time (sec)", "Total Time (display)", "Timestamp"]
        ∧ rows.drop 7 = oneLapState.lap_times.map (fun lap_data =>
            [Nat.repr lap_data.number, fmt3 lap_data.lap_time,
             format_time lap_data.lap_time, fmt3 lap_data.total_time,
             format_time lap_data.total_time, strftimeMs lap_data.timestamp])
        ∧ (∀ q : ℚ, ∃ a b : String, fmt3 q = a ++ "." ++ b ∧ b.length = 3)
        ∧ (∀ t : Timestamp, strftimeMs t =
            ((strftimeSec t).toList ++ ('.' :: padDigits 3 (t.micro / 1000))).asString)) :=
  ⟨by simp [oneLapState], rfl, by decide, by decide, rfl,
    save_results_export_layout dlg0 ts0 oneLapState (by simp [oneLapState]) rfl
      (by decide) (by decide) rfl⟩

end LapTimer
